import Mathlib

/-!
Verification of the OpenBB data-provider adapter layer of TradingAgents
(`tradingagents/dataflows/openbb_provider.py`) and of the vendor-routing
rules specified for `tradingagents/dataflows/interface.py`.

The adapters are embedded shallowly: the external OpenBB SDK is an oracle
(a record of endpoint functions, each mapping a keyword-argument record to
either an exception message or a result table), pandas data frames are
tables of string-rendered cells, and the ambient wall-clock timestamp that
`datetime.now().strftime(...)` produces is an explicit string parameter.
-/

set_option maxRecDepth 8192

namespace TA

/-- The single-quote character as a string (used inside several message
strings of the source, such as `No data found for symbol '...'`). -/
def sq : String := String.mk [Char.ofNat 39]

/-- Python `str.upper()` restricted to the ASCII range, as used on ticker
symbols in the source. -/
def pyUpper (s : String) : String := String.mk (s.data.map Char.toUpper)

/-- Python `str.lower()` restricted to the ASCII range, as used on the
`freq` argument of the statement adapters. -/
def pyLower (s : String) : String := String.mk (s.data.map Char.toLower)

/-- Python string slicing `s[:n]` (by code points). -/
def pyTake (n : Nat) (s : String) : String := String.mk (s.data.take n)

/-- Python truthiness of an optional string: `None` and the empty string
are falsy, every other string is truthy. -/
def truthy : Option String → Bool
  | none => false
  | some s => s != ""

/-- Join a list of strings with a separator, like `sep.join(parts)` in
Python. -/
def joinSep (sep : String) : List String → String
  | [] => ""
  | [x] => x
  | x :: y :: xs => x ++ sep ++ joinSep sep (y :: xs)

/-- Concatenation of a list of strings. -/
def concatAll : List String → String
  | [] => ""
  | x :: xs => x ++ concatAll xs

/-- `pat` occurs as a contiguous substring of `s`. -/
def containsStr (s pat : String) : Prop := pat.data <:+: s.data

instance (s pat : String) : Decidable (containsStr s pat) := by
  unfold containsStr
  infer_instance

/-- A cell must be quoted by `csv.QUOTE_MINIMAL` (used by pandas
`to_csv`) when it holds a comma, a double quote or a line break. -/
def csvNeedsQuote (s : String) : Bool :=
  s.data.any (fun c => c == ',' || c == '"' || c == Char.ofNat 10 || c == Char.ofNat 13)

/-- Double every double quote of a cell, the escaping step of the CSV
quoting rule. -/
def csvEscape (s : String) : String :=
  String.mk (s.data.foldr (fun c acc => if c == '"' then '"' :: '"' :: acc else c :: acc) [])

/-- Render one CSV cell, quoting it only when needed. -/
def csvCell (s : String) : String :=
  if csvNeedsQuote s then "\"" ++ csvEscape s ++ "\"" else s

/-- A pandas data frame as the adapters observe it: a (possibly empty)
index name, column labels, and rows, each row being its index label
paired with its cells, all string-rendered. -/
structure Df where
  indexName : String
  cols : List String
  rows : List (String × List String)
deriving DecidableEq

/-- pandas `df.empty`: true when either axis has length zero. -/
def Df.empty (df : Df) : Bool := df.rows.isEmpty || df.cols.isEmpty

/-- pandas `len(df)`: the number of rows. -/
def Df.len (df : Df) : Nat := df.rows.length

/-- pandas `df.to_csv()`: the header line (index name then column labels)
followed by one comma-separated line per row, each line ending in a
newline. -/
def Df.to_csv (df : Df) : String :=
  joinSep "," (csvCell df.indexName :: df.cols.map csvCell) ++ "\n" ++
    concatAll (df.rows.map (fun r =>
      joinSep "," (csvCell r.1 :: r.2.map csvCell) ++ "\n"))

/-- pandas `df.tail(n)`: the last `n` rows (all rows when the frame is
shorter), index preserved. -/
def Df.tail (n : Nat) (df : Df) : Df :=
  { df with rows := df.rows.drop (df.rows.length - n) }

/-- Look a column up in one row, like `row.get(col)` on a pandas row. -/
def rowGet (cols cells : List String) (c : String) : Option String :=
  (cols.zip cells).lookup c

/-- Numeric value of a list of decimal digits. -/
def natOfDigits (l : List Char) : Nat :=
  l.foldl (fun a c => a * 10 + (c.toNat - 48)) 0

/-- Split a character list at the first dot, when there is one. -/
def splitDot : List Char → Option (List Char × List Char)
  | [] => none
  | c :: r =>
    if c == '.' then some ([], r)
    else (splitDot r).map (fun p => (c :: p.1, p.2))

/-- Drop trailing zero digits but keep at least one digit. -/
def stripTrailingZeros (l : List Char) : List Char :=
  match (l.reverse.dropWhile (fun c => c == '0')).reverse with
  | [] => ['0']
  | r => r

/-- pandas `Series.round(2)` on a string-rendered decimal number: round
half to even at two decimal places and re-render. Cells that do not look
like a decimal number with more than two fraction digits are returned
unchanged. The binary floating-point representation error of the real
pandas computation is not modelled; no claim observes a rounded digit. -/
def py_round2 (s : String) : String :=
  let p := match s.data with
    | '-' :: r => (true, r)
    | r => (false, r)
  match splitDot p.2 with
  | none => s
  | some (ip, fp) =>
    if !(ip.all Char.isDigit) || !(fp.all Char.isDigit) then s
    else if fp.length ≤ 2 then s
    else
      let keep := fp.take 2
      let rest := fp.drop 2
      let base := natOfDigits (ip ++ keep)
      let up : Bool :=
        match rest with
        | [] => false
        | c :: cs =>
          if c.toNat > 53 then true
          else if c.toNat < 53 then false
          else if cs.any (fun x => x != '0') then true
          else base % 2 == 1
      let n := base + (if up then 1 else 0)
      let fracDigits := [Char.ofNat (48 + n % 100 / 10), Char.ofNat (48 + n % 10)]
      (if p.1 && n != 0 then "-" else "") ++ toString (n / 100) ++ "." ++
        String.mk (stripTrailingZeros fracDigits)

/-- Left-pad the decimal rendering of a number with zeros to a width. -/
def padNum (w n : Nat) : String :=
  let s := toString n
  if s.length < w then String.mk (List.replicate (w - s.length) '0') ++ s else s

/-- A calendar date, for `datetime.strptime(s, "%Y-%m-%d")` and the day
arithmetic of `get_global_news`. -/
structure Date where
  y : Nat
  m : Nat
  d : Nat
deriving DecidableEq

/-- Split a character list at every dash. -/
def splitDash : List Char → List (List Char)
  | [] => [[]]
  | c :: cs =>
    let r := splitDash cs
    if c == '-' then [] :: r
    else match r with
      | [] => [[c]]
      | h :: t => (c :: h) :: t

/-- Length of a month in the proleptic Gregorian calendar. -/
def monthLen (y m : Nat) : Nat :=
  if m == 2 then
    if y % 4 == 0 && (y % 100 != 0 || y % 400 == 0) then 29 else 28
  else if m == 4 || m == 6 || m == 9 || m == 11 then 30
  else 31

/-- A nonempty all-digit field of bounded width, as `strptime` accepts
for `%Y`, `%m` and `%d`. -/
def parseNumField (maxW : Nat) (l : List Char) : Option Nat :=
  if l ≠ [] ∧ l.length ≤ maxW ∧ l.all Char.isDigit then some (natOfDigits l) else none

/-- `datetime.strptime(s, "%Y-%m-%d")`: three dash-separated digit fields
forming a valid calendar date. -/
def parseDate (s : String) : Option Date :=
  match splitDash s.data with
  | [ys, ms, ds] =>
    match parseNumField 4 ys, parseNumField 2 ms, parseNumField 2 ds with
    | some y, some m, some d =>
      if 1 ≤ y ∧ 1 ≤ m ∧ m ≤ 12 ∧ 1 ≤ d ∧ d ≤ monthLen y m then some ⟨y, m, d⟩
      else none
    | _, _, _ => none
  | _ => none

/-- Days since the epoch 1970-01-01 of a civil date (Howard Hinnant
`days_from_civil`). -/
def daysFromCivil (dt : Date) : Int :=
  let y : Int := (dt.y : Int) - (if dt.m ≤ 2 then 1 else 0)
  let era : Int := Int.fdiv y 400
  let yoe : Int := y - era * 400
  let mp : Int := (dt.m : Int) + (if dt.m > 2 then -3 else 9)
  let doy : Int := (153 * mp + 2).fdiv 5 + (dt.d : Int) - 1
  let doe : Int := yoe * 365 + yoe.fdiv 4 - yoe.fdiv 100 + doy
  era * 146097 + doe - 719468

/-- Civil date of a count of days since 1970-01-01 (Howard Hinnant
`civil_from_days`). -/
def civilFromDays (z0 : Int) : Date :=
  let z : Int := z0 + 719468
  let era : Int := Int.fdiv z 146097
  let doe : Int := z - era * 146097
  let yoe : Int := (doe - doe.fdiv 1460 + doe.fdiv 36524 - doe.fdiv 146096).fdiv 365
  let y : Int := yoe + era * 400
  let doy : Int := doe - (365 * yoe + yoe.fdiv 4 - yoe.fdiv 100)
  let mp : Int := (5 * doy + 2).fdiv 153
  let d : Int := doy - (153 * mp + 2).fdiv 5 + 1
  let m : Int := mp + (if mp < 10 then 3 else -9)
  let yy : Int := y + (if m ≤ 2 then 1 else 0)
  ⟨yy.toNat, m.toNat, d.toNat⟩

/-- `relativedelta(days=n)` subtraction on a date. -/
def subDays (dt : Date) (n : Int) : Date :=
  civilFromDays (daysFromCivil dt - n)

/-- `strftime("%Y-%m-%d")`. -/
def fmtDate (dt : Date) : String :=
  padNum 4 dt.y ++ "-" ++ padNum 2 dt.m ++ "-" ++ padNum 2 dt.d

/-! Keyword-argument records of the SDK endpoints the adapters call. -/

/-- Arguments of `obb.equity.price.historical`. -/
structure PriceCall where
  symbol : String
  start_date : String
  end_date : String
  provider : String
deriving DecidableEq

/-- Arguments of `obb.equity.profile`. -/
structure ProfileCall where
  symbol : String
  provider : String
deriving DecidableEq

/-- Arguments of `obb.equity.fundamental.metrics`. -/
structure MetricsCall where
  symbol : String
  provider : String
deriving DecidableEq

/-- Arguments of `obb.equity.fundamental.balance`, `.cash` and `.income`. -/
structure StatementCall where
  symbol : String
  period : String
  provider : String
  limit : Nat
deriving DecidableEq

/-- Arguments of `obb.equity.ownership.insider_trading`. -/
structure InsiderCall where
  symbol : String
  provider : String
  limit : Nat
deriving DecidableEq

/-- Arguments of `obb.news.company`. -/
structure NewsCall where
  symbol : String
  start_date : String
  end_date : String
  provider : String
  limit : Nat
deriving DecidableEq

/-- Arguments of `obb.news.world`. -/
structure WorldNewsCall where
  start_date : String
  end_date : String
  provider : String
  limit : Nat
deriving DecidableEq

/-- Arguments of `obb.economy.fred_series`; the optional dates model the
kwargs dictionary, `none` meaning the key is omitted from the call. -/
structure FredCall where
  symbol : String
  provider : String
  start_date : Option String
  end_date : Option String
deriving DecidableEq

/-- Arguments of `obb.equity.fundamental.filings` (`ftype` is the `type`
keyword of the source). -/
structure FilingsCall where
  symbol : String
  ftype : String
  provider : String
  limit : Nat
deriving DecidableEq

/-- The OpenBB SDK as the adapters observe it: each endpoint either
raises an exception carrying a message or returns a data frame (the
`result.to_dataframe()` of the source is folded into the oracle). -/
structure ObbSDK where
  price_historical : PriceCall → Except String Df
  profile : ProfileCall → Except String Df
  metrics : MetricsCall → Except String Df
  balance : StatementCall → Except String Df
  cash : StatementCall → Except String Df
  income : StatementCall → Except String Df
  insider_trading : InsiderCall → Except String Df
  news_company : NewsCall → Except String Df
  news_world : WorldNewsCall → Except String Df
  fred_series : FredCall → Except String Df
  filings : FilingsCall → Except String Df

/-! The lazy SDK singleton of `_get_obb`. -/

/-- The `obb` module object: its credential store and its endpoints. -/
structure Obb where
  fred_api_key : Option String
  sdk : ObbSDK

/-- Ambient process environment of one `_get_obb` initialization attempt:
the outcome of `from openbb import obb` and the two credential
environment variables. -/
structure InitEnv where
  sdkModule : Except String Obb
  envFredKey : Option String
  envOpenbbFredKey : Option String

/-- A Python exception, tagged so that an `ImportError` is
distinguishable from a generic `Exception`. -/
inductive PyExc where
  | importError (msg : String)
  | exception (msg : String)
deriving DecidableEq

/-- The message of the `ImportError` `_get_obb` raises when the `openbb`
package is missing. -/
def installMsg : String :=
  "openbb is not installed. Install with: pip install " ++ sq ++
    "openbb[yfinance,sec,fred]" ++ sq

/-- The initialization path of `_get_obb` (taken when the cached `_obb`
is `None`): import the SDK, read the FRED key from the environment
(first `FRED_API_KEY`, else `OPENBB_FRED_API_KEY`, Python `or`
truthiness) and store it in the credential store when truthy; on
`ImportError`, raise the fixed installation-hint `ImportError`. -/
def initObb (env : InitEnv) : Except PyExc Obb :=
  match env.sdkModule with
  | .error _ => .error (.importError installMsg)
  | .ok obb0 =>
    let fred_key := if truthy env.envFredKey then env.envFredKey else env.envOpenbbFredKey
    .ok (if truthy fred_key then { obb0 with fred_api_key := fred_key } else obb0)

/-- `_get_obb`: return the cached singleton when present, otherwise run
the initialization path and cache its result. Returns the client paired
with the new value of the module-global `_obb`. -/
def getObb (env : InitEnv) (st : Option Obb) : Except PyExc (Obb × Option Obb) :=
  match st with
  | some o => .ok (o, some o)
  | none =>
    match initObb env with
    | .error e => .error e
    | .ok o => .ok (o, some o)

/-- The shape shared by every adapter: `obb = _get_obb()` stands outside
the `try` block, so an exception of `_get_obb` propagates to the caller,
while the body (the `try`/`except` part) always produces a string. -/
def adapterCall (env : InitEnv) (st : Option Obb) (body : ObbSDK → String) :
    Except PyExc String × Option Obb :=
  match getObb env st with
  | .error e => (.error e, st)
  | .ok (o, st') => (.ok (body o.sdk), st')

/-! The adapter functions, one Lean function per source function. Each
takes the SDK oracle and, where the source formats a retrieval
timestamp, the `datetime.now().strftime("%Y-%m-%d %H:%M:%S")` string
`ts` as an explicit parameter. -/

/-- The `obb.equity.price.historical` call of `get_stock_data`. -/
def stockCallOf (symbol start_date end_date : String) : PriceCall :=
  { symbol := pyUpper symbol, start_date := start_date, end_date := end_date,
    provider := "yfinance" }

/-- The `col_map` renaming of `get_stock_data` (keys absent from the
frame rename nothing, so the conditional dictionary comprehension of the
source is a plain per-column map). -/
def colMapStock (c : String) : String :=
  if c = "open" then "Open"
  else if c = "high" then "High"
  else if c = "low" then "Low"
  else if c = "close" then "Close"
  else if c = "volume" then "Volume"
  else c

/-- The `numeric_cols` list of `get_stock_data`. -/
def stockNumericCols : List String := ["Open", "High", "Low", "Close"]

/-- The in-place normalization of `get_stock_data`: rename the OHLCV
columns and round the numeric columns to two decimals. -/
def normalizeStockDf (df : Df) : Df :=
  let cols' := df.cols.map colMapStock
  { df with
    cols := cols',
    rows := df.rows.map (fun r =>
      (r.1, (cols'.zip r.2).map (fun p =>
        if p.1 ∈ stockNumericCols then py_round2 p.2 else p.2))) }

/-- The comment lines of the `get_stock_data` header f-string, one list
entry per `# ...` line. -/
def stockHeaderLines (symbol start_date end_date : String) (n : Nat) (ts : String) :
    List String :=
  ["# Stock data for " ++ pyUpper symbol ++ " from " ++ start_date ++ " to " ++ end_date,
   "# Total records: " ++ toString n,
   "# Source: OpenBB (yfinance provider)",
   "# Data retrieved on: " ++ ts]

/-- The `get_stock_data` header: its comment lines, each ending in a
newline, then the blank separator line. -/
def stockHeader (symbol start_date end_date : String) (n : Nat) (ts : String) : String :=
  concatAll ((stockHeaderLines symbol start_date end_date n ts).map (fun l => l ++ "\n")) ++ "\n"

/-- `get_stock_data(symbol, start_date, end_date)`. -/
def get_stock_data (sdk : ObbSDK) (symbol start_date end_date ts : String) : String :=
  match sdk.price_historical (stockCallOf symbol start_date end_date) with
  | .error e => "Error fetching stock data for " ++ symbol ++ ": " ++ e
  | .ok df =>
    if df.empty then
      "No data found for symbol " ++ sq ++ symbol ++ sq ++ " between " ++
        start_date ++ " and " ++ end_date
    else
      stockHeader symbol start_date end_date df.len ts ++ (normalizeStockDf df).to_csv

/-- The `obb.equity.profile` call of `get_fundamentals`. -/
def profileCallOf (ticker : String) : ProfileCall :=
  { symbol := pyUpper ticker, provider := "yfinance" }

/-- The `obb.equity.fundamental.metrics` call of `get_fundamentals`. -/
def metricsCallOf (ticker : String) : MetricsCall :=
  { symbol := pyUpper ticker, provider := "yfinance" }

/-- The `field_map` of `get_fundamentals`. -/
def profileFieldMap : List (String × String) :=
  [("name", "Name"), ("sector", "Sector"), ("industry", "Industry"),
   ("market_cap", "Market Cap"), ("beta", "Beta")]

/-- The `metric_fields` of `get_fundamentals`. -/
def metricFieldMap : List (String × String) :=
  [("pe_ratio", "PE Ratio (TTM)"), ("forward_pe", "Forward PE"),
   ("peg_ratio", "PEG Ratio"), ("eps_ttm", "EPS (TTM)"),
   ("dividend_yield", "Dividend Yield"), ("return_on_equity", "Return on Equity"),
   ("debt_to_equity", "Debt to Equity"), ("current_ratio", "Current Ratio"),
   ("revenue_per_share_ttm", "Revenue Per Share (TTM)"),
   ("price_to_book", "Price to Book")]

/-- One pass of the `for src, label in field_map.items()` loop: keep the
fields present in the row whose rendering is not `nan`. -/
def fieldLines (fm : List (String × String)) (cols cells : List String) : List String :=
  fm.filterMap (fun p =>
    match rowGet cols cells p.1 with
    | none => none
    | some v => if v = "nan" then none else some (p.2 ++ ": " ++ v))

/-- The comment lines of the `get_fundamentals` header f-string. -/
def fundamentalsHeaderLines (ticker ts : String) : List String :=
  ["# Company Fundamentals for " ++ pyUpper ticker,
   "# Source: OpenBB",
   "# Data retrieved on: " ++ ts]

/-- The `get_fundamentals` header. -/
def fundamentalsHeader (ticker ts : String) : String :=
  concatAll ((fundamentalsHeaderLines ticker ts).map (fun l => l ++ "\n")) ++ "\n"

/-- `get_fundamentals(ticker)`: profile call, then the optional metrics
supplement whose own `try`/`except ...: pass` swallows any failure. -/
def get_fundamentals (sdk : ObbSDK) (ticker ts : String) : String :=
  match sdk.profile (profileCallOf ticker) with
  | .error e => "Error retrieving fundamentals for " ++ ticker ++ ": " ++ e
  | .ok pdf =>
    if pdf.empty then "No fundamentals data found for symbol " ++ sq ++ ticker ++ sq
    else
      let row0 := pdf.rows.headD ("", [])
      let baseLines := fieldLines profileFieldMap pdf.cols row0.2
      let lines :=
        match sdk.metrics (metricsCallOf ticker) with
        | .error _ => baseLines
        | .ok mdf =>
          if mdf.empty then baseLines
          else
            let m0 := mdf.rows.headD ("", [])
            baseLines ++ fieldLines metricFieldMap mdf.cols m0.2
      fundamentalsHeader ticker ts ++ joinSep "\n" lines

/-- `period = "quarter" if freq.lower() == "quarterly" else "annual"`,
shared by the three statement adapters. -/
def periodOf (freq : String) : String :=
  if pyLower freq = "quarterly" then "quarter" else "annual"

/-- The `obb.equity.fundamental.balance` call of `get_balance_sheet`. -/
def balanceCallOf (ticker freq : String) : StatementCall :=
  { symbol := pyUpper ticker, period := periodOf freq, provider := "yfinance", limit := 8 }

/-- The comment lines of the `get_balance_sheet` header f-string. -/
def balanceHeaderLines (ticker freq ts : String) : List String :=
  ["# Balance Sheet data for " ++ pyUpper ticker ++ " (" ++ freq ++ ")",
   "# Source: OpenBB",
   "# Data retrieved on: " ++ ts]

/-- The `get_balance_sheet` header. -/
def balanceHeader (ticker freq ts : String) : String :=
  concatAll ((balanceHeaderLines ticker freq ts).map (fun l => l ++ "\n")) ++ "\n"

/-- `get_balance_sheet(ticker, freq)`. -/
def get_balance_sheet (sdk : ObbSDK) (ticker freq ts : String) : String :=
  match sdk.balance (balanceCallOf ticker freq) with
  | .error e => "Error retrieving balance sheet for " ++ ticker ++ ": " ++ e
  | .ok df =>
    if df.empty then "No balance sheet data found for symbol " ++ sq ++ ticker ++ sq
    else balanceHeader ticker freq ts ++ df.to_csv

/-- The `obb.equity.fundamental.cash` call of `get_cashflow`. -/
def cashCallOf (ticker freq : String) : StatementCall :=
  { symbol := pyUpper ticker, period := periodOf freq, provider := "yfinance", limit := 8 }

/-- The comment lines of the `get_cashflow` header f-string. -/
def cashHeaderLines (ticker freq ts : String) : List String :=
  ["# Cash Flow data for " ++ pyUpper ticker ++ " (" ++ freq ++ ")",
   "# Source: OpenBB",
   "# Data retrieved on: " ++ ts]

/-- The `get_cashflow` header. -/
def cashHeader (ticker freq ts : String) : String :=
  concatAll ((cashHeaderLines ticker freq ts).map (fun l => l ++ "\n")) ++ "\n"

/-- `get_cashflow(ticker, freq)`. -/
def get_cashflow (sdk : ObbSDK) (ticker freq ts : String) : String :=
  match sdk.cash (cashCallOf ticker freq) with
  | .error e => "Error retrieving cash flow for " ++ ticker ++ ": " ++ e
  | .ok df =>
    if df.empty then "No cash flow data found for symbol " ++ sq ++ ticker ++ sq
    else cashHeader ticker freq ts ++ df.to_csv

/-- The `obb.equity.fundamental.income` call of `get_income_statement`. -/
def incomeCallOf (ticker freq : String) : StatementCall :=
  { symbol := pyUpper ticker, period := periodOf freq, provider := "yfinance", limit := 8 }

/-- The comment lines of the `get_income_statement` header f-string. -/
def incomeHeaderLines (ticker freq ts : String) : List String :=
  ["# Income Statement data for " ++ pyUpper ticker ++ " (" ++ freq ++ ")",
   "# Source: OpenBB",
   "# Data retrieved on: " ++ ts]

/-- The `get_income_statement` header. -/
def incomeHeader (ticker freq ts : String) : String :=
  concatAll ((incomeHeaderLines ticker freq ts).map (fun l => l ++ "\n")) ++ "\n"

/-- `get_income_statement(ticker, freq)`. -/
def get_income_statement (sdk : ObbSDK) (ticker freq ts : String) : String :=
  match sdk.income (incomeCallOf ticker freq) with
  | .error e => "Error retrieving income statement for " ++ ticker ++ ": " ++ e
  | .ok df =>
    if df.empty then "No income statement data found for symbol " ++ sq ++ ticker ++ sq
    else incomeHeader ticker freq ts ++ df.to_csv

/-- The `obb.equity.ownership.insider_trading` call of
`get_insider_transactions`. -/
def insiderCallOf (ticker : String) : InsiderCall :=
  { symbol := pyUpper ticker, provider := "sec", limit := 50 }

/-- The comment lines of the `get_insider_transactions` header f-string. -/
def insiderHeaderLines (ticker ts : String) : List String :=
  ["# Insider Transactions data for " ++ pyUpper ticker,
   "# Source: OpenBB (SEC)",
   "# Data retrieved on: " ++ ts]

/-- The `get_insider_transactions` header. -/
def insiderHeader (ticker ts : String) : String :=
  concatAll ((insiderHeaderLines ticker ts).map (fun l => l ++ "\n")) ++ "\n"

/-- `get_insider_transactions(ticker)`. -/
def get_insider_transactions (sdk : ObbSDK) (ticker ts : String) : String :=
  match sdk.insider_trading (insiderCallOf ticker) with
  | .error e => "Error retrieving insider transactions for " ++ ticker ++ ": " ++ e
  | .ok df =>
    if df.empty then "No insider transactions data found for symbol " ++ sq ++ ticker ++ sq
    else insiderHeader ticker ts ++ df.to_csv

/-- The `obb.news.company` call of `get_news`. -/
def newsCallOf (ticker start_date end_date : String) : NewsCall :=
  { symbol := pyUpper ticker, start_date := start_date, end_date := end_date,
    provider := "yfinance", limit := 20 }

/-- One pass of the `for _, row in df.iterrows()` loop of `get_news`. -/
def newsEntry (cols cells : List String) : String :=
  let title := (rowGet cols cells "title").getD "No title"
  let source := (rowGet cols cells "source").getD ((rowGet cols cells "publisher").getD "Unknown")
  let url := (rowGet cols cells "url").getD ((rowGet cols cells "link").getD "")
  let summary := (rowGet cols cells "text").getD ((rowGet cols cells "summary").getD "")
  "### " ++ title ++ " (source: " ++ source ++ ")\n" ++
    (if summary != "" then pyTake 500 summary ++ "\n" else "") ++
    (if url != "" then "Link: " ++ url ++ "\n" else "") ++ "\n"

/-- `get_news(ticker, start_date, end_date)`. -/
def get_news (sdk : ObbSDK) (ticker start_date end_date : String) : String :=
  match sdk.news_company (newsCallOf ticker start_date end_date) with
  | .error e => "Error fetching news for " ++ ticker ++ ": " ++ e
  | .ok df =>
    if df.empty then
      "No news found for " ++ ticker ++ " between " ++ start_date ++ " and " ++ end_date
    else
      "## " ++ ticker ++ " News, from " ++ start_date ++ " to " ++ end_date ++ ":\n\n" ++
        concatAll (df.rows.map (fun r => newsEntry df.cols r.2))

/-- The `obb.news.world` call of `get_global_news`. -/
def worldCallOf (start_date end_date : String) (limit : Nat) : WorldNewsCall :=
  { start_date := start_date, end_date := end_date, provider := "yfinance", limit := limit }

/-- One pass of the row loop of `get_global_news` (no summary field). -/
def globalNewsEntry (cols cells : List String) : String :=
  let title := (rowGet cols cells "title").getD "No title"
  let source := (rowGet cols cells "source").getD ((rowGet cols cells "publisher").getD "Unknown")
  let url := (rowGet cols cells "url").getD ((rowGet cols cells "link").getD "")
  "### " ++ title ++ " (source: " ++ source ++ ")\n" ++
    (if url != "" then "Link: " ++ url ++ "\n" else "") ++ "\n"

/-- The `ValueError` message of `datetime.strptime` on a malformed date
(its exact wording is not observed by any claim; what matters is that
the exception is caught by the `except` clause of `get_global_news`). -/
def strptimeMsg (s : String) : String :=
  "time data " ++ sq ++ s ++ sq ++ " does not match format " ++ sq ++ "%Y-%m-%d" ++ sq

/-- `get_global_news(curr_date, look_back_days, limit)`: the `strptime`
call stands inside the `try` block, so a malformed `curr_date` also
produces the `Error fetching global news:` string. -/
def get_global_news (sdk : ObbSDK) (curr_date : String) (look_back_days : Int)
    (limit : Nat) : String :=
  match parseDate curr_date with
  | none => "Error fetching global news: " ++ strptimeMsg curr_date
  | some dt =>
    let start_date := fmtDate (subDays dt look_back_days)
    match sdk.news_world (worldCallOf start_date curr_date limit) with
    | .error e => "Error fetching global news: " ++ e
    | .ok df =>
      if df.empty then "No global news found for " ++ curr_date
      else
        "## Global Market News, from " ++ start_date ++ " to " ++ curr_date ++ ":\n\n" ++
          concatAll (df.rows.map (fun r => globalNewsEntry df.cols r.2))

/-- The `obb.equity.fundamental.filings` call of `get_sec_filings`. -/
def filingsCallOf (ticker ftype : String) (limit : Nat) : FilingsCall :=
  { symbol := pyUpper ticker, ftype := ftype, provider := "sec", limit := limit }

/-- One pass of the row loop of `get_sec_filings`: the date/description
line, then the URL line when the URL is truthy. -/
def filingLines (ftype : String) (cols cells : List String) : List String :=
  let date := (rowGet cols cells "filing_date").getD ((rowGet cols cells "date").getD "Unknown")
  let url := (rowGet cols cells "link").getD ((rowGet cols cells "url").getD "")
  let desc := (rowGet cols cells "description").getD ((rowGet cols cells "title").getD ftype)
  ("- [" ++ date ++ "] " ++ desc) :: (if url != "" then ["  URL: " ++ url] else [])

/-- The comment lines of the `get_sec_filings` header f-string. -/
def filingsHeaderLines (ticker ftype ts : String) : List String :=
  ["# SEC " ++ ftype ++ " Filings for " ++ pyUpper ticker,
   "# Source: OpenBB (SEC)",
   "# Data retrieved on: " ++ ts]

/-- The `get_sec_filings` header. -/
def filingsHeader (ticker ftype ts : String) : String :=
  concatAll ((filingsHeaderLines ticker ftype ts).map (fun l => l ++ "\n")) ++ "\n"

/-- `get_sec_filings(ticker, filing_type, limit)`. -/
def get_sec_filings (sdk : ObbSDK) (ticker ftype : String) (limit : Nat) (ts : String) :
    String :=
  match sdk.filings (filingsCallOf ticker ftype limit) with
  | .error e => "Error retrieving SEC filings for " ++ ticker ++ ": " ++ e
  | .ok df =>
    if df.empty then "No " ++ ftype ++ " filings found for " ++ ticker
    else
      filingsHeader ticker ftype ts ++
        joinSep "\n" (df.rows.foldr (fun r acc => filingLines ftype df.cols r.2 ++ acc) [])

/-- The kwargs dictionary of the `obb.economy.fred_series` call of
`get_economic_indicators`: a date key is present only when the argument
is truthy (`if start_date: kwargs["start_date"] = start_date`). -/
def fredCallOf (indicator : String) (start_date end_date : Option String) : FredCall :=
  { symbol := indicator, provider := "fred",
    start_date := if truthy start_date then start_date else none,
    end_date := if truthy end_date then end_date else none }

/-- The SDK interaction trace of `get_economic_indicators`: its body
evaluates `obb.economy.fred_series(**kwargs)` exactly once,
unconditionally, with the kwargs of `fredCallOf`. -/
def get_economic_indicators_trace (indicator : String) (start_date end_date : Option String) :
    List FredCall :=
  [fredCallOf indicator start_date end_date]

/-- The comment lines of the `get_economic_indicators` header f-string. -/
def fredHeaderLines (indicator : String) (shown : Nat) (ts : String) : List String :=
  ["# FRED Economic Data: " ++ indicator,
   "# Source: OpenBB (FRED)",
   "# Showing last " ++ toString shown ++ " data points",
   "# Data retrieved on: " ++ ts]

/-- The `get_economic_indicators` header. -/
def fredHeader (indicator : String) (shown : Nat) (ts : String) : String :=
  concatAll ((fredHeaderLines indicator shown ts).map (fun l => l ++ "\n")) ++ "\n"

/-- `get_economic_indicators(indicator, start_date, end_date)`: only the
last twenty data points are kept (`recent = df.tail(20)`). -/
def get_economic_indicators (sdk : ObbSDK) (indicator : String)
    (start_date end_date : Option String) (ts : String) : String :=
  match sdk.fred_series (fredCallOf indicator start_date end_date) with
  | .error e => "Error retrieving FRED data for " ++ indicator ++ ": " ++ e
  | .ok df =>
    if df.empty then "No data found for FRED series " ++ sq ++ indicator ++ sq
    else
      let recent := df.tail 20
      fredHeader indicator recent.len ts ++ recent.to_csv

/-! The vendor router. The routing layer
(`tradingagents/dataflows/interface.py`) is not among the sources, only
its tests are; the two definitions below are therefore modelled from the
spec rather than translated from code. -/

/-- Modelled from the spec: the ordered candidate list `route_to_vendor`
builds for one capability, `interface.py` being absent from the sources.
Spec 4.2: the configured vendor comes first when it has an
implementation for the capability, followed by the remaining registered
vendors in registration order. -/
def candidateList (configured : String) (registered : List String) : List String :=
  if configured ∈ registered then
    configured :: registered.filter (fun v => v != configured)
  else registered

/-- Modelled from the spec: the invocation loop of `route_to_vendor`,
`interface.py` being absent from the sources. Spec 4.2: candidates are
invoked in order, a failure advances to the next candidate, and when
every candidate fails the last error propagates. -/
def tryVendors (impl : String → Except String String) : List String → Except String String
  | [] => .error "no vendor registered"
  | [v] => impl v
  | v :: w :: rest =>
    match impl v with
    | .ok r => .ok r
    | .error _ => tryVendors impl (w :: rest)

/-! Concrete SDK instances used by the witness and counterexample
theorems. -/

/-- The empty frame, `pd.DataFrame()`. -/
def emptyDf : Df := ⟨"", [], []⟩

/-- An oracle whose every endpoint succeeds with the empty frame. -/
def sdkOk : ObbSDK :=
  ⟨fun _ => .ok emptyDf, fun _ => .ok emptyDf, fun _ => .ok emptyDf,
   fun _ => .ok emptyDf, fun _ => .ok emptyDf, fun _ => .ok emptyDf,
   fun _ => .ok emptyDf, fun _ => .ok emptyDf, fun _ => .ok emptyDf,
   fun _ => .ok emptyDf, fun _ => .ok emptyDf⟩

/-- An oracle whose every endpoint raises with the given message. -/
def sdkRaise (m : String) : ObbSDK :=
  ⟨fun _ => .error m, fun _ => .error m, fun _ => .error m,
   fun _ => .error m, fun _ => .error m, fun _ => .error m,
   fun _ => .error m, fun _ => .error m, fun _ => .error m,
   fun _ => .error m, fun _ => .error m⟩

/-- A one-row profile frame. -/
def dfProfile : Df := ⟨"", ["name", "sector"], [("0", ["Apple Inc.", "Technology"])]⟩

/-- An oracle whose profile endpoint succeeds while its metrics endpoint
raises. -/
def sdkMetricsBoom : ObbSDK :=
  { sdkOk with profile := fun _ => .ok dfProfile, metrics := fun _ => .error "metrics boom" }

/-- A three-row balance frame whose text nowhere holds the digit 3. -/
def dfThreeRows : Df := ⟨"", ["x"], [("a", ["100"]), ("b", ["200"]), ("c", ["400"])]⟩

/-- An oracle whose balance endpoint returns the three-row frame. -/
def sdkBalanceThree : ObbSDK := { sdkOk with balance := fun _ => .ok dfThreeRows }

/-- The mocked balance frame of the end-to-end scenario. -/
def dfBalance : Df :=
  ⟨"", ["total_assets", "total_liabilities"],
   [("0", ["100000", "50000"]), ("1", ["110000", "55000"])]⟩

/-- An oracle whose balance endpoint returns the mocked balance frame. -/
def sdkBalance : ObbSDK := { sdkOk with balance := fun _ => .ok dfBalance }

/-- A two-row OHLCV frame. -/
def dfStock : Df :=
  ⟨"date", ["open", "close"],
   [("2025-01-01", ["150.0", "154.0"]), ("2025-01-02", ["151.0", "155.0"])]⟩

/-- An oracle whose price endpoint returns the OHLCV frame. -/
def sdkStock : ObbSDK := { sdkOk with price_historical := fun _ => .ok dfStock }

/-- A three-row FRED frame. -/
def dfFred : Df :=
  ⟨"date", ["value"],
   [("2024-01-01", ["4.5"]), ("2024-02-01", ["4.3"]), ("2024-03-01", ["4.1"])]⟩

/-- An oracle whose FRED endpoint returns the FRED frame. -/
def sdkFred : ObbSDK := { sdkOk with fred_series := fun _ => .ok dfFred }

/-- A raising oracle except for its FRED endpoint. -/
def sdkFredOnly : ObbSDK := { sdkRaise "down" with fred_series := fun _ => .ok emptyDf }

/-- A successfully importable SDK module with an empty credential store. -/
def obb0 : Obb := ⟨none, sdkOk⟩

/-- An environment where the import succeeds and no credential variable
is set. -/
def env0 : InitEnv := ⟨.ok obb0, none, none⟩

/-- An environment where the `openbb` package is missing. -/
def envBad : InitEnv :=
  ⟨.error ("No module named " ++ sq ++ "openbb" ++ sq), none, none⟩

/-- A vendor implementation map where every vendor fails. -/
def implDown : String → Except String String := fun _ => .error "down"

/-! Helper lemmas about substring containment. -/

theorem contains_self (s : String) : containsStr s s :=
  ⟨[], [], by simp⟩

theorem contains_left {s p : String} (h : containsStr s p) (t : String) :
    containsStr (s ++ t) p := by
  obtain ⟨u, v, huv⟩ := h
  exact ⟨u, v ++ t.data, by rw [String.data_append, ← huv]; simp [List.append_assoc]⟩

theorem contains_right {s p : String} (t : String) (h : containsStr s p) :
    containsStr (t ++ s) p := by
  obtain ⟨u, v, huv⟩ := h
  exact ⟨t.data ++ u, v, by rw [String.data_append, ← huv]; simp [List.append_assoc]⟩

theorem contains_trans {s p q : String} (h1 : containsStr s p) (h2 : containsStr p q) :
    containsStr s q :=
  h2.trans h1

theorem contains_concatAll {l : List String} {x : String} (hx : x ∈ l) :
    containsStr (concatAll l) x := by
  induction l with
  | nil => cases hx
  | cons y ys ih =>
    rcases List.mem_cons.mp hx with rfl | hmem
    · exact contains_left (contains_self x) (concatAll ys)
    · exact contains_right y (ih hmem)

theorem contains_joinSep {l : List String} {x : String} (sep : String) (hx : x ∈ l) :
    containsStr (joinSep sep l) x := by
  induction l with
  | nil => cases hx
  | cons y ys ih =>
    cases ys with
    | nil =>
      rcases List.mem_cons.mp hx with rfl | hmem
      · exact contains_self x
      · cases hmem
    | cons z zs =>
      rcases List.mem_cons.mp hx with rfl | hmem
      · exact contains_left (contains_left (contains_self x) sep) (joinSep sep (z :: zs))
      · exact contains_right (y ++ sep) (ih hmem)

/-- A string stands inside a comment block followed by arbitrary text
whenever it stands inside one of the block's lines. -/
theorem contains_block {lines : List String} {x p : String} (hx : x ∈ lines)
    (hp : containsStr x p) (t u : String) :
    containsStr (concatAll (lines.map (fun l => l ++ "\n")) ++ t ++ u) p :=
  contains_left
    (contains_left
      (contains_trans (contains_concatAll (List.mem_map_of_mem _ hx))
        (contains_left hp "\n")) t) u

/-- A plain cell of a frame stands verbatim inside the CSV rendering. -/
theorem contains_to_csv_cell {df : Df} {r : String × List String} {c : String}
    (hr : r ∈ df.rows) (hc : c ∈ r.2) (hq : csvNeedsQuote c = false) :
    containsStr df.to_csv c := by
  have hcell : csvCell c = c := by simp [csvCell, hq]
  have h1 : containsStr (joinSep "," (csvCell r.1 :: r.2.map csvCell) ++ "\n") c := by
    rw [← hcell]
    exact contains_left
      (contains_joinSep ","
        (List.mem_cons_of_mem _ (List.mem_map_of_mem _ hc))) "\n"
  have h3 : (joinSep "," (csvCell r.1 :: r.2.map csvCell) ++ "\n") ∈
      df.rows.map (fun r => joinSep "," (csvCell r.1 :: r.2.map csvCell) ++ "\n") :=
    List.mem_map_of_mem _ hr
  exact contains_right _ (contains_trans (contains_concatAll h3) h1)

/-- Prepending text to a string keeps its first character. -/
theorem hashHead {a : String} (b : String) (h : a.data.head? = some '#') :
    (a ++ b).data.head? = some '#' := by
  rw [String.data_append]
  cases ha : a.data with
  | nil => rw [ha] at h; simp at h
  | cons c cs => rw [ha] at h; simpa using h

/-! Helper lemmas about the candidate list and the invocation loop. -/

theorem perm_cons_filter {a : String} :
    ∀ {l : List String}, l.Nodup → a ∈ l →
      (a :: l.filter (fun v => v != a)).Perm l := by
  intro l
  induction l with
  | nil => intro _ ha; cases ha
  | cons x xs ih =>
    intro h ha
    rcases List.mem_cons.mp ha with heq | hmem
    · subst heq
      rw [List.filter_cons_of_neg (by simp)]
      have hnotin : a ∉ xs := (List.nodup_cons.mp h).1
      have hf : xs.filter (fun v => v != a) = xs := by
        rw [List.filter_eq_self]
        intro b hb
        simp only [bne_iff_ne, ne_eq, decide_eq_true_eq]
        intro e
        exact hnotin (e ▸ hb)
      rw [hf]
    · by_cases heq : x = a
      · exact absurd hmem (heq ▸ (List.nodup_cons.mp h).1)
      · rw [List.filter_cons_of_pos (by simp [bne_iff_ne]; exact heq)]
        exact (List.Perm.swap x a _).trans
          ((ih (List.nodup_cons.mp h).2 hmem).cons x)

theorem tryVendors_error {impl : String → Except String String} :
    ∀ {cands : List String} {e : String}, tryVendors impl cands = .error e →
      ∀ v ∈ cands, ∃ m, impl v = .error m := by
  intro cands
  induction cands with
  | nil => intro e _ v hv; cases hv
  | cons x xs ih =>
    intro e h v hv
    cases xs with
    | nil =>
      rcases List.mem_cons.mp hv with rfl | hmem
      · exact ⟨e, by simpa [tryVendors] using h⟩
      · cases hmem
    | cons y ys =>
      cases himpl : impl x with
      | ok r => simp [tryVendors, himpl] at h
      | error m =>
        rcases List.mem_cons.mp hv with rfl | hmem
        · exact ⟨m, himpl⟩
        · exact ih (by simpa [tryVendors, himpl] using h) v hmem

/-! Theorems settling the claims. -/

/-- C3: for a capability whose configured vendor is registered, the
candidate list opens with the configured vendor and is a permutation of
the registered vendors, so every registered vendor appears; a capability
registered with exactly one vendor has a candidate list of exactly one
entry; and when the invocation loop gives up with an error, every
registered vendor was tried and failed. -/
theorem c3_route_candidates (cfg : String) (regs : List String)
    (impl : String → Except String String) (hnd : regs.Nodup) :
    (cfg ∈ regs →
      (candidateList cfg regs).head? = some cfg ∧
      (candidateList cfg regs).Perm regs) ∧
    (regs.length = 1 → (candidateList cfg regs).length = 1) ∧
    (∀ e : String, tryVendors impl (candidateList cfg regs) = .error e →
      ∀ v ∈ regs, ∃ m, impl v = .error m) := by
  refine ⟨fun hmem => ⟨?_, ?_⟩, ?_, ?_⟩
  · simp [candidateList, hmem]
  · simp only [candidateList, if_pos hmem]
    exact perm_cons_filter hnd hmem
  · intro hlen
    obtain ⟨x, rfl⟩ := List.length_eq_one.mp hlen
    by_cases hx : cfg = x
    · subst hx
      simp [candidateList]
    · simp [candidateList, hx]
  · intro e he v hv
    have hvc : v ∈ candidateList cfg regs := by
      by_cases hmem : cfg ∈ regs
      · have hv2 : v ∈ cfg :: regs.filter (fun w => w != cfg) :=
          (perm_cons_filter hnd hmem).mem_iff.mpr hv
        simpa [candidateList, hmem] using hv2
      · simpa [candidateList, hmem] using hv
    exact tryVendors_error he v hvc

/-- C4: when the `openbb` package cannot be imported, `_get_obb` raises
an `ImportError` carrying the installation hint, the hint names
`openbb is not installed`, the error propagates through the adapter
shape uncaught, and any error surfacing out of the uninitialized
`_get_obb` in such an environment is that `ImportError`. -/
theorem c4_missing_sdk_import_error (env : InitEnv) (m : String)
    (h : env.sdkModule = .error m) :
    getObb env none = .error (.importError installMsg) ∧
    containsStr installMsg "openbb is not installed" ∧
    (∀ body : ObbSDK → String,
      adapterCall env none body = (.error (.importError installMsg), none)) ∧
    (∀ e : PyExc, getObb env none = .error e → e = .importError installMsg) := by
  refine ⟨?_, by decide, ?_, ?_⟩
  · simp [getObb, initObb, h]
  · intro body
    simp [adapterCall, getObb, initObb, h]
  · intro e he
    simp [getObb, initObb, h] at he
    exact he.symm

/-- C5: the SDK client is a lazy singleton. A successful uncached call
stores the returned client in the cache; a cached call returns exactly
the cached instance and its result is independent of the import and of
the credential environment; and a call with the cache reset to `None`
re-runs the initialization path, so it fails again when the package is
missing. -/
theorem c5_lazy_singleton :
    (∀ (env : InitEnv) (o : Obb) (st' : Option Obb),
      getObb env none = .ok (o, st') → st' = some o) ∧
    (∀ (env : InitEnv) (o : Obb), getObb env (some o) = .ok (o, some o)) ∧
    (∀ (env env' : InitEnv) (o : Obb), getObb env (some o) = getObb env' (some o)) ∧
    (∀ env : InitEnv, getObb env none = (initObb env).map (fun o => (o, some o))) ∧
    (∀ (env' : InitEnv) (m : String), env'.sdkModule = .error m →
      getObb env' none = .error (.importError installMsg)) := by
  refine ⟨?_, fun env o => rfl, fun env env' o => rfl, ?_, ?_⟩
  · intro env o st' h
    cases hi : initObb env with
    | error e => simp [getObb, hi] at h
    | ok o' =>
      simp [getObb, hi] at h
      rw [← h.2, h.1]
  · intro env
    cases hi : initObb env with
    | error e => simp [getObb, hi, Except.map]
    | ok o' => simp [getObb, hi, Except.map]
  · intro env' m h
    simp [getObb, initObb, h]

/-- C7: `get_economic_indicators("UNRATE", "2024-01-01", "2024-12-31")`
performs exactly one FRED call, with exactly the kwargs
`symbol="UNRATE", provider="fred", start_date="2024-01-01",
end_date="2024-12-31"`; a `None` date argument is omitted from the
kwargs; and the adapter observes the oracle only at that single call. -/
theorem c7_fred_call_args :
    get_economic_indicators_trace "UNRATE" (some "2024-01-01") (some "2024-12-31") =
      [{ symbol := "UNRATE", provider := "fred", start_date := some "2024-01-01",
         end_date := some "2024-12-31" }] ∧
    (∀ (i : String) (ed : Option String), (fredCallOf i none ed).start_date = none) ∧
    (∀ (i : String) (sd : Option String), (fredCallOf i sd none).end_date = none) ∧
    (∀ (sdk sdk' : ObbSDK) (i : String) (sd ed : Option String) (ts : String),
      sdk.fred_series (fredCallOf i sd ed) = sdk'.fred_series (fredCallOf i sd ed) →
      get_economic_indicators sdk i sd ed ts = get_economic_indicators sdk' i sd ed ts) := by
  refine ⟨by decide, ?_, ?_, ?_⟩
  · intro i ed
    simp [fredCallOf, truthy]
  · intro i sd
    simp [fredCallOf, truthy]
  · intro sdk sdk' i sd ed ts h
    simp only [get_economic_indicators]
    rw [h]

/-- C1 counterexample: an SDK whose profile endpoint succeeds while its
metrics endpoint raises. The metrics call is an SDK call made by
`get_fundamentals` and it raises, yet the adapter returns the profile
output, which holds neither `Error` nor the exception message — the
exception is swallowed by the inner `except Exception: pass`, not
converted to an `Error ...` string. -/
theorem c1_counterexample :
    get_fundamentals sdkMetricsBoom "AAPL" "2025-01-02 03:04:05" =
      fundamentalsHeader "AAPL" "2025-01-02 03:04:05" ++
        "Name: Apple Inc.\nSector: Technology" ∧
    ¬ containsStr (get_fundamentals sdkMetricsBoom "AAPL" "2025-01-02 03:04:05") "Error" ∧
    ¬ containsStr (get_fundamentals sdkMetricsBoom "AAPL" "2025-01-02 03:04:05")
      "metrics boom" := by
  decide

/-- C1 (amended): with the singleton initialized no adapter raises (the
adapter shape returns an `ok` string), and for every adapter, an
exception of its primary SDK call is converted to a string holding
`Error` and the original message. Exceptions of the supplementary
metrics call of `get_fundamentals` are swallowed silently instead
(see the counterexample). -/
theorem c1_adapter_errors_stringified :
    (∀ (env : InitEnv) (o : Obb) (body : ObbSDK → String),
      adapterCall env (some o) body = (.ok (body o.sdk), some o)) ∧
    (∀ (sdk : ObbSDK) (m sym sd ed ts : String),
      sdk.price_historical = (fun _ => .error m) →
      get_stock_data sdk sym sd ed ts =
        "Error fetching stock data for " ++ sym ++ ": " ++ m ∧
      containsStr (get_stock_data sdk sym sd ed ts) "Error" ∧
      containsStr (get_stock_data sdk sym sd ed ts) m) ∧
    (∀ (sdk : ObbSDK) (m t ts : String),
      sdk.profile = (fun _ => .error m) →
      get_fundamentals sdk t ts =
        "Error retrieving fundamentals for " ++ t ++ ": " ++ m ∧
      containsStr (get_fundamentals sdk t ts) "Error" ∧
      containsStr (get_fundamentals sdk t ts) m) ∧
    (∀ (sdk : ObbSDK) (m t f ts : String),
      sdk.balance = (fun _ => .error m) →
      get_balance_sheet sdk t f ts =
        "Error retrieving balance sheet for " ++ t ++ ": " ++ m ∧
      containsStr (get_balance_sheet sdk t f ts) "Error" ∧
      containsStr (get_balance_sheet sdk t f ts) m) ∧
    (∀ (sdk : ObbSDK) (m t f ts : String),
      sdk.cash = (fun _ => .error m) →
      get_cashflow sdk t f ts =
        "Error retrieving cash flow for " ++ t ++ ": " ++ m ∧
      containsStr (get_cashflow sdk t f ts) "Error" ∧
      containsStr (get_cashflow sdk t f ts) m) ∧
    (∀ (sdk : ObbSDK) (m t f ts : String),
      sdk.income = (fun _ => .error m) →
      get_income_statement sdk t f ts =
        "Error retrieving income statement for " ++ t ++ ": " ++ m ∧
      containsStr (get_income_statement sdk t f ts) "Error" ∧
      containsStr (get_income_statement sdk t f ts) m) ∧
    (∀ (sdk : ObbSDK) (m t ts : String),
      sdk.insider_trading = (fun _ => .error m) →
      get_insider_transactions sdk t ts =
        "Error retrieving insider transactions for " ++ t ++ ": " ++ m ∧
      containsStr (get_insider_transactions sdk t ts) "Error" ∧
      containsStr (get_insider_transactions sdk t ts) m) ∧
    (∀ (sdk : ObbSDK) (m t sd ed : String),
      sdk.news_company = (fun _ => .error m) →
      get_news sdk t sd ed =
        "Error fetching news for " ++ t ++ ": " ++ m ∧
      containsStr (get_news sdk t sd ed) "Error" ∧
      containsStr (get_news sdk t sd ed) m) ∧
    (∀ (sdk : ObbSDK) (m curr : String) (lb : Int) (lim : Nat) (dt : Date),
      parseDate curr = some dt →
      sdk.news_world = (fun _ => .error m) →
      get_global_news sdk curr lb lim = "Error fetching global news: " ++ m ∧
      containsStr (get_global_news sdk curr lb lim) "Error" ∧
      containsStr (get_global_news sdk curr lb lim) m) ∧
    (∀ (sdk : ObbSDK) (m t ft : String) (lim : Nat) (ts : String),
      sdk.filings = (fun _ => .error m) →
      get_sec_filings sdk t ft lim ts =
        "Error retrieving SEC filings for " ++ t ++ ": " ++ m ∧
      containsStr (get_sec_filings sdk t ft lim ts) "Error" ∧
      containsStr (get_sec_filings sdk t ft lim ts) m) ∧
    (∀ (sdk : ObbSDK) (m i : String) (sd ed : Option String) (ts : String),
      sdk.fred_series = (fun _ => .error m) →
      get_economic_indicators sdk i sd ed ts =
        "Error retrieving FRED data for " ++ i ++ ": " ++ m ∧
      containsStr (get_economic_indicators sdk i sd ed ts) "Error" ∧
      containsStr (get_economic_indicators sdk i sd ed ts) m) := by
  refine ⟨fun env o body => rfl, ?_, ?_, ?_, ?_, ?_, ?_, ?_, ?_, ?_, ?_⟩
  · intro sdk m sym sd ed ts h
    have hg : get_stock_data sdk sym sd ed ts =
        "Error fetching stock data for " ++ sym ++ ": " ++ m := by
      unfold get_stock_data; rw [h]
    refine ⟨hg, ?_, ?_⟩ <;> rw [hg]
    · exact contains_left (contains_left (contains_left (by decide) sym) ": ") m
    · exact contains_right _ (contains_self m)
  · intro sdk m t ts h
    have hg : get_fundamentals sdk t ts =
        "Error retrieving fundamentals for " ++ t ++ ": " ++ m := by
      unfold get_fundamentals; rw [h]
    refine ⟨hg, ?_, ?_⟩ <;> rw [hg]
    · exact contains_left (contains_left (contains_left (by decide) t) ": ") m
    · exact contains_right _ (contains_self m)
  · intro sdk m t f ts h
    have hg : get_balance_sheet sdk t f ts =
        "Error retrieving balance sheet for " ++ t ++ ": " ++ m := by
      unfold get_balance_sheet; rw [h]
    refine ⟨hg, ?_, ?_⟩ <;> rw [hg]
    · exact contains_left (contains_left (contains_left (by decide) t) ": ") m
    · exact contains_right _ (contains_self m)
  · intro sdk m t f ts h
    have hg : get_cashflow sdk t f ts =
        "Error retrieving cash flow for " ++ t ++ ": " ++ m := by
      unfold get_cashflow; rw [h]
    refine ⟨hg, ?_, ?_⟩ <;> rw [hg]
    · exact contains_left (contains_left (contains_left (by decide) t) ": ") m
    · exact contains_right _ (contains_self m)
  · intro sdk m t f ts h
    have hg : get_income_statement sdk t f ts =
        "Error retrieving income statement for " ++ t ++ ": " ++ m := by
      unfold get_income_statement; rw [h]
    refine ⟨hg, ?_, ?_⟩ <;> rw [hg]
    · exact contains_left (contains_left (contains_left (by decide) t) ": ") m
    · exact contains_right _ (contains_self m)
  · intro sdk m t ts h
    have hg : get_insider_transactions sdk t ts =
        "Error retrieving insider transactions for " ++ t ++ ": " ++ m := by
      unfold get_insider_transactions; rw [h]
    refine ⟨hg, ?_, ?_⟩ <;> rw [hg]
    · exact contains_left (contains_left (contains_left (by decide) t) ": ") m
    · exact contains_right _ (contains_self m)
  · intro sdk m t sd ed h
    have hg : get_news sdk t sd ed =
        "Error fetching news for " ++ t ++ ": " ++ m := by
      unfold get_news; rw [h]
    refine ⟨hg, ?_, ?_⟩ <;> rw [hg]
    · exact contains_left (contains_left (contains_left (by decide) t) ": ") m
    · exact contains_right _ (contains_self m)
  · intro sdk m curr lb lim dt hd h
    have hg : get_global_news sdk curr lb lim =
        "Error fetching global news: " ++ m := by
      unfold get_global_news; rw [hd, h]
    refine ⟨hg, ?_, ?_⟩ <;> rw [hg]
    · exact contains_left (by decide) m
    · exact contains_right _ (contains_self m)
  · intro sdk m t ft lim ts h
    have hg : get_sec_filings sdk t ft lim ts =
        "Error retrieving SEC filings for " ++ t ++ ": " ++ m := by
      unfold get_sec_filings; rw [h]
    refine ⟨hg, ?_, ?_⟩ <;> rw [hg]
    · exact contains_left (contains_left (contains_left (by decide) t) ": ") m
    · exact contains_right _ (contains_self m)
  · intro sdk m i sd ed ts h
    have hg : get_economic_indicators sdk i sd ed ts =
        "Error retrieving FRED data for " ++ i ++ ": " ++ m := by
      unfold get_economic_indicators; rw [h]
    refine ⟨hg, ?_, ?_⟩ <;> rw [hg]
    · exact contains_left (contains_left (contains_left (by decide) i) ": ") m
    · exact contains_right _ (contains_self m)

/-- C2: for every adapter, when the SDK call succeeds with an empty
result table the adapter returns its fixed `No ... found` message
naming the arguments — an ordinary string, not an error and not an
exception. -/
theorem c2_empty_result_messages :
    (∀ (sdk : ObbSDK) (df : Df) (sym sd ed ts : String),
      sdk.price_historical = (fun _ => .ok df) → df.empty = true →
      get_stock_data sdk sym sd ed ts =
        "No data found for symbol " ++ sq ++ sym ++ sq ++ " between " ++ sd ++ " and " ++ ed) ∧
    (∀ (sdk : ObbSDK) (df : Df) (t ts : String),
      sdk.profile = (fun _ => .ok df) → df.empty = true →
      get_fundamentals sdk t ts = "No fundamentals data found for symbol " ++ sq ++ t ++ sq) ∧
    (∀ (sdk : ObbSDK) (df : Df) (t f ts : String),
      sdk.balance = (fun _ => .ok df) → df.empty = true →
      get_balance_sheet sdk t f ts =
        "No balance sheet data found for symbol " ++ sq ++ t ++ sq) ∧
    (∀ (sdk : ObbSDK) (df : Df) (t f ts : String),
      sdk.cash = (fun _ => .ok df) → df.empty = true →
      get_cashflow sdk t f ts = "No cash flow data found for symbol " ++ sq ++ t ++ sq) ∧
    (∀ (sdk : ObbSDK) (df : Df) (t f ts : String),
      sdk.income = (fun _ => .ok df) → df.empty = true →
      get_income_statement sdk t f ts =
        "No income statement data found for symbol " ++ sq ++ t ++ sq) ∧
    (∀ (sdk : ObbSDK) (df : Df) (t ts : String),
      sdk.insider_trading = (fun _ => .ok df) → df.empty = true →
      get_insider_transactions sdk t ts =
        "No insider transactions data found for symbol " ++ sq ++ t ++ sq) ∧
    (∀ (sdk : ObbSDK) (df : Df) (t sd ed : String),
      sdk.news_company = (fun _ => .ok df) → df.empty = true →
      get_news sdk t sd ed = "No news found for " ++ t ++ " between " ++ sd ++ " and " ++ ed) ∧
    (∀ (sdk : ObbSDK) (df : Df) (curr : String) (lb : Int) (lim : Nat) (dt : Date),
      parseDate curr = some dt →
      sdk.news_world = (fun _ => .ok df) → df.empty = true →
      get_global_news sdk curr lb lim = "No global news found for " ++ curr) ∧
    (∀ (sdk : ObbSDK) (df : Df) (t ft : String) (lim : Nat) (ts : String),
      sdk.filings = (fun _ => .ok df) → df.empty = true →
      get_sec_filings sdk t ft lim ts = "No " ++ ft ++ " filings found for " ++ t) ∧
    (∀ (sdk : ObbSDK) (df : Df) (i : String) (sd ed : Option String) (ts : String),
      sdk.fred_series = (fun _ => .ok df) → df.empty = true →
      get_economic_indicators sdk i sd ed ts =
        "No data found for FRED series " ++ sq ++ i ++ sq) := by
  refine ⟨?_, ?_, ?_, ?_, ?_, ?_, ?_, ?_, ?_, ?_⟩
  · intro sdk df sym sd ed ts h he
    unfold get_stock_data
    rw [h]
    simp [he]
  · intro sdk df t ts h he
    unfold get_fundamentals
    rw [h]
    simp [he]
  · intro sdk df t f ts h he
    unfold get_balance_sheet
    rw [h]
    simp [he]
  · intro sdk df t f ts h he
    unfold get_cashflow
    rw [h]
    simp [he]
  · intro sdk df t f ts h he
    unfold get_income_statement
    rw [h]
    simp [he]
  · intro sdk df t ts h he
    unfold get_insider_transactions
    rw [h]
    simp [he]
  · intro sdk df t sd ed h he
    unfold get_news
    rw [h]
    simp [he]
  · intro sdk df curr lb lim dt hd h he
    unfold get_global_news
    rw [hd, h]
    simp [he]
  · intro sdk df t ft lim ts h he
    unfold get_sec_filings
    rw [h]
    simp [he]
  · intro sdk df i sd ed ts h he
    unfold get_economic_indicators
    rw [h]
    simp [he]

/-- C6: the end-to-end balance sheet scenario. The call record of
`get_balance_sheet("AAPL", "quarterly")` carries the uppercased symbol,
`period="quarter"`, `provider="yfinance"` and `limit=8`; and on a
populated result the output holds the header text `Balance Sheet` and
every (unquoted) literal cell value of the table. -/
theorem c6_balance_sheet_scenario :
    balanceCallOf "AAPL" "quarterly" =
      { symbol := "AAPL", period := "quarter", provider := "yfinance", limit := 8 } ∧
    ∀ (sdk : ObbSDK) (df : Df) (ts : String),
      sdk.balance (balanceCallOf "AAPL" "quarterly") = .ok df →
      df.empty = false →
      containsStr (get_balance_sheet sdk "AAPL" "quarterly" ts) "Balance Sheet" ∧
      (∀ r ∈ df.rows, ∀ c ∈ r.2, csvNeedsQuote c = false →
        containsStr (get_balance_sheet sdk "AAPL" "quarterly" ts) c) := by
  refine ⟨by decide, ?_⟩
  intro sdk df ts h he
  have hg : get_balance_sheet sdk "AAPL" "quarterly" ts =
      balanceHeader "AAPL" "quarterly" ts ++ df.to_csv := by
    unfold get_balance_sheet
    rw [h]
    simp [he]
  constructor
  · rw [hg]
    unfold balanceHeader
    have hx : ("# Balance Sheet data for " ++ pyUpper "AAPL" ++ " (" ++ "quarterly" ++ ")") ∈
        balanceHeaderLines "AAPL" "quarterly" ts := by
      simp [balanceHeaderLines]
    exact contains_block hx (by decide) "\n" df.to_csv
  · intro r hr c hc hq
    rw [hg]
    exact contains_right _ (contains_to_csv_cell hr hc hq)

/-- C10: `get_economic_indicators` keeps only the last `min(n, 20)` rows
of a populated FRED frame — the earlier rows are dropped — and its
header holds the line `# Showing last {min(n, 20)} data points`. -/
theorem c10_fred_tail_truncation :
    ∀ (sdk : ObbSDK) (df : Df) (i : String) (sd ed : Option String) (ts : String),
      sdk.fred_series (fredCallOf i sd ed) = .ok df →
      df.empty = false →
      get_economic_indicators sdk i sd ed ts =
        fredHeader i (min df.len 20) ts ++ (df.tail 20).to_csv ∧
      (df.tail 20).rows = df.rows.drop (df.len - 20) ∧
      (df.tail 20).len = min df.len 20 ∧
      containsStr (get_economic_indicators sdk i sd ed ts)
        ("# Showing last " ++ toString (min df.len 20) ++ " data points") := by
  intro sdk df i sd ed ts h he
  have hlen : (df.tail 20).len = min df.len 20 := by
    simp [Df.tail, Df.len, List.length_drop]
    omega
  have hg : get_economic_indicators sdk i sd ed ts =
      fredHeader i (df.tail 20).len ts ++ (df.tail 20).to_csv := by
    unfold get_economic_indicators
    rw [h]
    simp [he]
  refine ⟨by rw [hg, hlen], rfl, hlen, ?_⟩
  rw [hg, hlen]
  unfold fredHeader
  have hx : ("# Showing last " ++ toString (min df.len 20) ++ " data points") ∈
      fredHeaderLines i (min df.len 20) ts := by
    simp [fredHeaderLines]
  exact contains_block hx (contains_self _) "\n" (df.tail 20).to_csv

/-- C8 counterexample: the header comment block of `get_balance_sheet`
on a populated three-row table does not state the record count — the
digit 3 appears nowhere in it (nor does any other count line; the same
holds for the cash flow, income statement and insider headers). -/
theorem c8_counterexample :
    dfThreeRows.len = 3 ∧
    get_balance_sheet sdkBalanceThree "AB" "annual" "2025-01-01 00:00:00" =
      balanceHeader "AB" "annual" "2025-01-01 00:00:00" ++ dfThreeRows.to_csv ∧
    ¬ containsStr (balanceHeader "AB" "annual" "2025-01-01 00:00:00") "3" := by
  decide

/-- C8 (amended): the tabular adapters return a commented CSV block — a
header of `#`-prefixed comment lines stating the source and the
retrieval timestamp, a blank line, then the CSV rows — with the record
count stated only by `get_stock_data` (`# Total records: n`) and
`get_economic_indicators` (`# Showing last k data points`); the balance
sheet, cash flow, income statement and insider headers omit it. -/
theorem c8_commented_csv_blocks :
    (∀ (sdk : ObbSDK) (df : Df) (sym sd ed ts : String),
      sdk.price_historical = (fun _ => .ok df) → df.empty = false →
      get_stock_data sdk sym sd ed ts =
        concatAll ((stockHeaderLines sym sd ed df.len ts).map (fun l => l ++ "\n")) ++
          "\n" ++ (normalizeStockDf df).to_csv ∧
      (∀ l ∈ stockHeaderLines sym sd ed df.len ts, l.data.head? = some '#') ∧
      containsStr (get_stock_data sdk sym sd ed ts) "Source: OpenBB" ∧
      containsStr (get_stock_data sdk sym sd ed ts) ts ∧
      containsStr (get_stock_data sdk sym sd ed ts)
        ("# Total records: " ++ toString df.len)) ∧
    (∀ (sdk : ObbSDK) (df : Df) (t f ts : String),
      sdk.balance = (fun _ => .ok df) → df.empty = false →
      get_balance_sheet sdk t f ts =
        concatAll ((balanceHeaderLines t f ts).map (fun l => l ++ "\n")) ++
          "\n" ++ df.to_csv ∧
      (∀ l ∈ balanceHeaderLines t f ts, l.data.head? = some '#') ∧
      containsStr (get_balance_sheet sdk t f ts) "Source: OpenBB" ∧
      containsStr (get_balance_sheet sdk t f ts) ts) ∧
    (∀ (sdk : ObbSDK) (df : Df) (t f ts : String),
      sdk.cash = (fun _ => .ok df) → df.empty = false →
      get_cashflow sdk t f ts =
        concatAll ((cashHeaderLines t f ts).map (fun l => l ++ "\n")) ++
          "\n" ++ df.to_csv ∧
      (∀ l ∈ cashHeaderLines t f ts, l.data.head? = some '#') ∧
      containsStr (get_cashflow sdk t f ts) "Source: OpenBB" ∧
      containsStr (get_cashflow sdk t f ts) ts) ∧
    (∀ (sdk : ObbSDK) (df : Df) (t f ts : String),
      sdk.income = (fun _ => .ok df) → df.empty = false →
      get_income_statement sdk t f ts =
        concatAll ((incomeHeaderLines t f ts).map (fun l => l ++ "\n")) ++
          "\n" ++ df.to_csv ∧
      (∀ l ∈ incomeHeaderLines t f ts, l.data.head? = some '#') ∧
      containsStr (get_income_statement sdk t f ts) "Source: OpenBB" ∧
      containsStr (get_income_statement sdk t f ts) ts) ∧
    (∀ (sdk : ObbSDK) (df : Df) (t ts : String),
      sdk.insider_trading = (fun _ => .ok df) → df.empty = false →
      get_insider_transactions sdk t ts =
        concatAll ((insiderHeaderLines t ts).map (fun l => l ++ "\n")) ++
          "\n" ++ df.to_csv ∧
      (∀ l ∈ insiderHeaderLines t ts, l.data.head? = some '#') ∧
      containsStr (get_insider_transactions sdk t ts) "Source: OpenBB" ∧
      containsStr (get_insider_transactions sdk t ts) ts) ∧
    (∀ (sdk : ObbSDK) (df : Df) (i : String) (sd ed : Option String) (ts : String),
      sdk.fred_series = (fun _ => .ok df) → df.empty = false →
      get_economic_indicators sdk i sd ed ts =
        concatAll ((fredHeaderLines i (df.tail 20).len ts).map (fun l => l ++ "\n")) ++
          "\n" ++ (df.tail 20).to_csv ∧
      (∀ l ∈ fredHeaderLines i (df.tail 20).len ts, l.data.head? = some '#') ∧
      containsStr (get_economic_indicators sdk i sd ed ts) "Source: OpenBB" ∧
      containsStr (get_economic_indicators sdk i sd ed ts) ts ∧
      containsStr (get_economic_indicators sdk i sd ed ts)
        ("# Showing last " ++ toString (df.tail 20).len ++ " data points")) := by
  refine ⟨?_, ?_, ?_, ?_, ?_, ?_⟩
  · intro sdk df sym sd ed ts h he
    have hg : get_stock_data sdk sym sd ed ts =
        stockHeader sym sd ed df.len ts ++ (normalizeStockDf df).to_csv := by
      unfold get_stock_data
      rw [h]
      simp [he]
    refine ⟨by rw [hg]; rfl, ?_, ?_, ?_, ?_⟩
    · intro l hl
      simp only [stockHeaderLines, List.mem_cons, List.not_mem_nil, or_false] at hl
      rcases hl with rfl | rfl | rfl | rfl
      · exact hashHead ed (hashHead " to " (hashHead sd (hashHead " from "
          (hashHead (pyUpper sym) (by decide)))))
      · exact hashHead (toString df.len) (by decide)
      · decide
      · exact hashHead ts (by decide)
    · rw [hg]
      unfold stockHeader
      have hx : ("# Source: OpenBB (yfinance provider)" : String) ∈
          stockHeaderLines sym sd ed df.len ts := by simp [stockHeaderLines]
      exact contains_block hx (by decide) "\n" _
    · rw [hg]
      unfold stockHeader
      have hx : ("# Data retrieved on: " ++ ts) ∈ stockHeaderLines sym sd ed df.len ts := by
        simp [stockHeaderLines]
      exact contains_block hx (contains_right _ (contains_self ts)) "\n" _
    · rw [hg]
      unfold stockHeader
      have hx : ("# Total records: " ++ toString df.len) ∈
          stockHeaderLines sym sd ed df.len ts := by simp [stockHeaderLines]
      exact contains_block hx (contains_self _) "\n" _
  · intro sdk df t f ts h he
    have hg : get_balance_sheet sdk t f ts = balanceHeader t f ts ++ df.to_csv := by
      unfold get_balance_sheet
      rw [h]
      simp [he]
    refine ⟨by rw [hg]; rfl, ?_, ?_, ?_⟩
    · intro l hl
      simp only [balanceHeaderLines, List.mem_cons, List.not_mem_nil, or_false] at hl
      rcases hl with rfl | rfl | rfl
      · exact hashHead ")" (hashHead f (hashHead " (" (hashHead (pyUpper t) (by decide))))
      · decide
      · exact hashHead ts (by decide)
    · rw [hg]
      unfold balanceHeader
      have hx : ("# Source: OpenBB" : String) ∈ balanceHeaderLines t f ts := by
        simp [balanceHeaderLines]
      exact contains_block hx (by decide) "\n" _
    · rw [hg]
      unfold balanceHeader
      have hx : ("# Data retrieved on: " ++ ts) ∈ balanceHeaderLines t f ts := by
        simp [balanceHeaderLines]
      exact contains_block hx (contains_right _ (contains_self ts)) "\n" _
  · intro sdk df t f ts h he
    have hg : get_cashflow sdk t f ts = cashHeader t f ts ++ df.to_csv := by
      unfold get_cashflow
      rw [h]
      simp [he]
    refine ⟨by rw [hg]; rfl, ?_, ?_, ?_⟩
    · intro l hl
      simp only [cashHeaderLines, List.mem_cons, List.not_mem_nil, or_false] at hl
      rcases hl with rfl | rfl | rfl
      · exact hashHead ")" (hashHead f (hashHead " (" (hashHead (pyUpper t) (by decide))))
      · decide
      · exact hashHead ts (by decide)
    · rw [hg]
      unfold cashHeader
      have hx : ("# Source: OpenBB" : String) ∈ cashHeaderLines t f ts := by
        simp [cashHeaderLines]
      exact contains_block hx (by decide) "\n" _
    · rw [hg]
      unfold cashHeader
      have hx : ("# Data retrieved on: " ++ ts) ∈ cashHeaderLines t f ts := by
        simp [cashHeaderLines]
      exact contains_block hx (contains_right _ (contains_self ts)) "\n" _
  · intro sdk df t f ts h he
    have hg : get_income_statement sdk t f ts = incomeHeader t f ts ++ df.to_csv := by
      unfold get_income_statement
      rw [h]
      simp [he]
    refine ⟨by rw [hg]; rfl, ?_, ?_, ?_⟩
    · intro l hl
      simp only [incomeHeaderLines, List.mem_cons, List.not_mem_nil, or_false] at hl
      rcases hl with rfl | rfl | rfl
      · exact hashHead ")" (hashHead f (hashHead " (" (hashHead (pyUpper t) (by decide))))
      · decide
      · exact hashHead ts (by decide)
    · rw [hg]
      unfold incomeHeader
      have hx : ("# Source: OpenBB" : String) ∈ incomeHeaderLines t f ts := by
        simp [incomeHeaderLines]
      exact contains_block hx (by decide) "\n" _
    · rw [hg]
      unfold incomeHeader
      have hx : ("# Data retrieved on: " ++ ts) ∈ incomeHeaderLines t f ts := by
        simp [incomeHeaderLines]
      exact contains_block hx (contains_right _ (contains_self ts)) "\n" _
  · intro sdk df t ts h he
    have hg : get_insider_transactions sdk t ts = insiderHeader t ts ++ df.to_csv := by
      unfold get_insider_transactions
      rw [h]
      simp [he]
    refine ⟨by rw [hg]; rfl, ?_, ?_, ?_⟩
    · intro l hl
      simp only [insiderHeaderLines, List.mem_cons, List.not_mem_nil, or_false] at hl
      rcases hl with rfl | rfl | rfl
      · exact hashHead (pyUpper t) (by decide)
      · decide
      · exact hashHead ts (by decide)
    · rw [hg]
      unfold insiderHeader
      have hx : ("# Source: OpenBB (SEC)" : String) ∈ insiderHeaderLines t ts := by
        simp [insiderHeaderLines]
      exact contains_block hx (by decide) "\n" _
    · rw [hg]
      unfold insiderHeader
      have hx : ("# Data retrieved on: " ++ ts) ∈ insiderHeaderLines t ts := by
        simp [insiderHeaderLines]
      exact contains_block hx (contains_right _ (contains_self ts)) "\n" _
  · intro sdk df i sd ed ts h he
    have hg : get_economic_indicators sdk i sd ed ts =
        fredHeader i (df.tail 20).len ts ++ (df.tail 20).to_csv := by
      unfold get_economic_indicators
      rw [h]
      simp [he]
    refine ⟨by rw [hg]; rfl, ?_, ?_, ?_, ?_⟩
    · intro l hl
      simp only [fredHeaderLines, List.mem_cons, List.not_mem_nil, or_false] at hl
      rcases hl with rfl | rfl | rfl | rfl
      · exact hashHead i (by decide)
      · decide
      · exact hashHead " data points" (hashHead (toString (df.tail 20).len) (by decide))
      · exact hashHead ts (by decide)
    · rw [hg]
      unfold fredHeader
      have hx : ("# Source: OpenBB (FRED)" : String) ∈
          fredHeaderLines i (df.tail 20).len ts := by simp [fredHeaderLines]
      exact contains_block hx (by decide) "\n" _
    · rw [hg]
      unfold fredHeader
      have hx : ("# Data retrieved on: " ++ ts) ∈ fredHeaderLines i (df.tail 20).len ts := by
        simp [fredHeaderLines]
      exact contains_block hx (contains_right _ (contains_self ts)) "\n" _
    · rw [hg]
      unfold fredHeader
      have hx : ("# Showing last " ++ toString (df.tail 20).len ++ " data points") ∈
          fredHeaderLines i (df.tail 20).len ts := by simp [fredHeaderLines]
      exact contains_block hx (contains_self _) "\n" _

/-- C9: the statement adapters map a frequency to the SDK period by
lowercasing it and comparing with `quarterly`: exactly the strings whose
lowercase form is `quarterly` give `quarter`, every other string —
`monthly` and the empty string included — gives `annual`, all three
statement call builders use this mapping, and no frequency is rejected
(the period is always one of the two accepted values). -/
theorem c9_freq_period_mapping :
    (∀ freq : String, periodOf freq = "quarter" ↔ pyLower freq = "quarterly") ∧
    (∀ freq : String, periodOf freq = "quarter" ∨ periodOf freq = "annual") ∧
    (∀ t freq : String,
      (balanceCallOf t freq).period = periodOf freq ∧
      (cashCallOf t freq).period = periodOf freq ∧
      (incomeCallOf t freq).period = periodOf freq) ∧
    periodOf "monthly" = "annual" ∧ periodOf "" = "annual" ∧
    periodOf "QUARTERLY" = "quarter" := by
  refine ⟨?_, ?_, fun t freq => ⟨rfl, rfl, rfl⟩, by decide, by decide, by decide⟩
  · intro freq
    by_cases h : pyLower freq = "quarterly" <;> simp [periodOf, h]
  · intro freq
    by_cases h : pyLower freq = "quarterly" <;> simp [periodOf, h]

/-- Witness for C1: the amended theorem at a uniformly raising oracle
with message `API error`, every endpoint hypothesis discharged by
`rfl` and the date of the global-news clause parsed concretely. -/
theorem c1_witness :
    adapterCall env0 (some obb0)
        (fun sdk => get_stock_data sdk "AAPL" "2025-01-01" "2025-01-02" "t0") =
      (.ok (get_stock_data obb0.sdk "AAPL" "2025-01-01" "2025-01-02" "t0"), some obb0) ∧
    containsStr (get_stock_data (sdkRaise "API error") "AAPL" "2025-01-01" "2025-01-02" "t0")
      "Error" ∧
    containsStr (get_stock_data (sdkRaise "API error") "AAPL" "2025-01-01" "2025-01-02" "t0")
      "API error" ∧
    containsStr (get_fundamentals (sdkRaise "API error") "AAPL" "t0") "API error" ∧
    containsStr (get_balance_sheet (sdkRaise "API error") "AAPL" "quarterly" "t0") "API error" ∧
    containsStr (get_cashflow (sdkRaise "API error") "AAPL" "quarterly" "t0") "API error" ∧
    containsStr (get_income_statement (sdkRaise "API error") "AAPL" "quarterly" "t0")
      "API error" ∧
    containsStr (get_insider_transactions (sdkRaise "API error") "AAPL" "t0") "API error" ∧
    containsStr (get_news (sdkRaise "API error") "AAPL" "2025-01-01" "2025-01-02")
      "API error" ∧
    containsStr (get_global_news (sdkRaise "API error") "2025-01-15" 7 10) "API error" ∧
    containsStr (get_sec_filings (sdkRaise "API error") "AAPL" "10-K" 5 "t0") "API error" ∧
    containsStr (get_economic_indicators (sdkRaise "API error") "UNRATE" none none "t0")
      "API error" :=
  ⟨c1_adapter_errors_stringified.1 env0 obb0 _,
   (c1_adapter_errors_stringified.2.1 (sdkRaise "API error") "API error"
     "AAPL" "2025-01-01" "2025-01-02" "t0" rfl).2.1,
   (c1_adapter_errors_stringified.2.1 (sdkRaise "API error") "API error"
     "AAPL" "2025-01-01" "2025-01-02" "t0" rfl).2.2,
   (c1_adapter_errors_stringified.2.2.1 (sdkRaise "API error") "API error"
     "AAPL" "t0" rfl).2.2,
   (c1_adapter_errors_stringified.2.2.2.1 (sdkRaise "API error") "API error"
     "AAPL" "quarterly" "t0" rfl).2.2,
   (c1_adapter_errors_stringified.2.2.2.2.1 (sdkRaise "API error") "API error"
     "AAPL" "quarterly" "t0" rfl).2.2,
   (c1_adapter_errors_stringified.2.2.2.2.2.1 (sdkRaise "API error") "API error"
     "AAPL" "quarterly" "t0" rfl).2.2,
   (c1_adapter_errors_stringified.2.2.2.2.2.2.1 (sdkRaise "API error") "API error"
     "AAPL" "t0" rfl).2.2,
   (c1_adapter_errors_stringified.2.2.2.2.2.2.2.1 (sdkRaise "API error") "API error"
     "AAPL" "2025-01-01" "2025-01-02" rfl).2.2,
   (c1_adapter_errors_stringified.2.2.2.2.2.2.2.2.1 (sdkRaise "API error") "API error"
     "2025-01-15" 7 10 ⟨2025, 1, 15⟩ (by decide) rfl).2.2,
   (c1_adapter_errors_stringified.2.2.2.2.2.2.2.2.2.1 (sdkRaise "API error") "API error"
     "AAPL" "10-K" 5 "t0" rfl).2.2,
   (c1_adapter_errors_stringified.2.2.2.2.2.2.2.2.2.2 (sdkRaise "API error") "API error"
     "UNRATE" none none "t0" rfl).2.2⟩

/-- Witness for C2: the empty-table theorem at an oracle whose every
endpoint returns `pd.DataFrame()`, every hypothesis discharged by `rfl`
or `decide`. -/
theorem c2_witness :
    get_stock_data sdkOk "FAKE" "2025-01-01" "2025-01-02" "t0" =
      "No data found for symbol " ++ sq ++ "FAKE" ++ sq ++ " between " ++
        "2025-01-01" ++ " and " ++ "2025-01-02" ∧
    get_fundamentals sdkOk "FAKE" "t0" =
      "No fundamentals data found for symbol " ++ sq ++ "FAKE" ++ sq ∧
    get_balance_sheet sdkOk "FAKE" "quarterly" "t0" =
      "No balance sheet data found for symbol " ++ sq ++ "FAKE" ++ sq ∧
    get_cashflow sdkOk "FAKE" "quarterly" "t0" =
      "No cash flow data found for symbol " ++ sq ++ "FAKE" ++ sq ∧
    get_income_statement sdkOk "FAKE" "quarterly" "t0" =
      "No income statement data found for symbol " ++ sq ++ "FAKE" ++ sq ∧
    get_insider_transactions sdkOk "FAKE" "t0" =
      "No insider transactions data found for symbol " ++ sq ++ "FAKE" ++ sq ∧
    get_news sdkOk "FAKE" "2025-01-01" "2025-01-02" =
      "No news found for " ++ "FAKE" ++ " between " ++ "2025-01-01" ++ " and " ++
        "2025-01-02" ∧
    get_global_news sdkOk "2025-01-15" 7 10 =
      "No global news found for " ++ "2025-01-15" ∧
    get_sec_filings sdkOk "FAKE" "10-K" 5 "t0" =
      "No " ++ "10-K" ++ " filings found for " ++ "FAKE" ∧
    get_economic_indicators sdkOk "INVALID" none none "t0" =
      "No data found for FRED series " ++ sq ++ "INVALID" ++ sq :=
  ⟨c2_empty_result_messages.1 sdkOk emptyDf "FAKE" "2025-01-01" "2025-01-02" "t0" rfl rfl,
   c2_empty_result_messages.2.1 sdkOk emptyDf "FAKE" "t0" rfl rfl,
   c2_empty_result_messages.2.2.1 sdkOk emptyDf "FAKE" "quarterly" "t0" rfl rfl,
   c2_empty_result_messages.2.2.2.1 sdkOk emptyDf "FAKE" "quarterly" "t0" rfl rfl,
   c2_empty_result_messages.2.2.2.2.1 sdkOk emptyDf "FAKE" "quarterly" "t0" rfl rfl,
   c2_empty_result_messages.2.2.2.2.2.1 sdkOk emptyDf "FAKE" "t0" rfl rfl,
   c2_empty_result_messages.2.2.2.2.2.2.1 sdkOk emptyDf "FAKE" "2025-01-01" "2025-01-02"
     rfl rfl,
   c2_empty_result_messages.2.2.2.2.2.2.2.1 sdkOk emptyDf "2025-01-15" 7 10 ⟨2025, 1, 15⟩
     (by decide) rfl rfl,
   c2_empty_result_messages.2.2.2.2.2.2.2.2.1 sdkOk emptyDf "FAKE" "10-K" 5 "t0" rfl rfl,
   c2_empty_result_messages.2.2.2.2.2.2.2.2.2 sdkOk emptyDf "INVALID" none none "t0"
     rfl rfl⟩

/-- Witness for C3: a two-vendor capability with `openbb` configured,
a one-vendor capability, and a fully failing implementation map. -/
theorem c3_witness :
    (candidateList "openbb" ["yfinance", "openbb"]).head? = some "openbb" ∧
    (candidateList "openbb" ["yfinance", "openbb"]).Perm ["yfinance", "openbb"] ∧
    (candidateList "x" ["only"]).length = 1 ∧
    (∃ m, implDown "yfinance" = .error m) :=
  ⟨((c3_route_candidates "openbb" ["yfinance", "openbb"] implDown (by decide)).1
      (by decide)).1,
   ((c3_route_candidates "openbb" ["yfinance", "openbb"] implDown (by decide)).1
      (by decide)).2,
   (c3_route_candidates "x" ["only"] implDown (by decide)).2.1 rfl,
   (c3_route_candidates "openbb" ["yfinance", "openbb"] implDown (by decide)).2.2
     "down" rfl "yfinance" (by decide)⟩

/-- Witness for C4: an environment where the `openbb` import fails. -/
theorem c4_witness :
    getObb envBad none = .error (.importError installMsg) ∧
    containsStr installMsg "openbb is not installed" ∧
    adapterCall envBad none
        (fun sdk => get_stock_data sdk "AAPL" "2025-01-01" "2025-01-02" "t0") =
      (.error (.importError installMsg), none) :=
  ⟨(c4_missing_sdk_import_error envBad ("No module named " ++ sq ++ "openbb" ++ sq) rfl).1,
   (c4_missing_sdk_import_error envBad ("No module named " ++ sq ++ "openbb" ++ sq) rfl).2.1,
   (c4_missing_sdk_import_error envBad ("No module named " ++ sq ++ "openbb" ++ sq)
     rfl).2.2.1 _⟩

/-- Witness for C5: a concrete successful initialization, the cached
call returning the cached instance, and a reset followed by a missing
package failing again. -/
theorem c5_witness :
    some obb0 = some obb0 ∧
    getObb env0 (some obb0) = .ok (obb0, some obb0) ∧
    getObb envBad none = .error (.importError installMsg) :=
  ⟨c5_lazy_singleton.1 env0 obb0 (some obb0) rfl,
   c5_lazy_singleton.2.1 env0 obb0,
   c5_lazy_singleton.2.2.2.2 envBad ("No module named " ++ sq ++ "openbb" ++ sq) rfl⟩

/-- Witness for C6: the mocked two-row balance table of the scenario. -/
theorem c6_witness :
    containsStr (get_balance_sheet sdkBalance "AAPL" "quarterly" "2025-01-02 03:04:05")
      "Balance Sheet" ∧
    containsStr (get_balance_sheet sdkBalance "AAPL" "quarterly" "2025-01-02 03:04:05")
      "100000" :=
  ⟨(c6_balance_sheet_scenario.2 sdkBalance dfBalance "2025-01-02 03:04:05" rfl rfl).1,
   (c6_balance_sheet_scenario.2 sdkBalance dfBalance "2025-01-02 03:04:05" rfl rfl).2
     ("0", ["100000", "50000"]) (by decide) "100000" (by decide) (by decide)⟩

/-- Witness for C7: two oracles agreeing at the single FRED call give
the same output, and a `None` start date is omitted. -/
theorem c7_witness :
    get_economic_indicators sdkFredOnly "GDP" none none "t0" =
      get_economic_indicators sdkOk "GDP" none none "t0" ∧
    (fredCallOf "GDP" none none).start_date = none :=
  ⟨c7_fred_call_args.2.2.2 sdkFredOnly sdkOk "GDP" none none "t0" rfl,
   c7_fred_call_args.2.1 "GDP" none⟩

/-- Witness for C8: the commented-CSV theorem at concrete stock,
balance and FRED tables. -/
theorem c8_witness :
    containsStr (get_stock_data sdkStock "aapl" "2025-01-01" "2025-01-02" "t0")
      ("# Total records: " ++ toString dfStock.len) ∧
    containsStr (get_balance_sheet sdkBalance "AAPL" "quarterly" "t0") "Source: OpenBB" ∧
    ("# Source: OpenBB" : String).data.head? = some '#' ∧
    containsStr (get_economic_indicators sdkFred "UNRATE" none none "t0")
      ("# Showing last " ++ toString (dfFred.tail 20).len ++ " data points") :=
  ⟨(c8_commented_csv_blocks.1 sdkStock dfStock "aapl" "2025-01-01" "2025-01-02" "t0"
      rfl rfl).2.2.2.2,
   (c8_commented_csv_blocks.2.1 sdkBalance dfBalance "AAPL" "quarterly" "t0"
      rfl rfl).2.2.1,
   (c8_commented_csv_blocks.2.1 sdkBalance dfBalance "AAPL" "quarterly" "t0"
      rfl rfl).2.1 "# Source: OpenBB" (by decide),
   (c8_commented_csv_blocks.2.2.2.2.2 sdkFred dfFred "UNRATE" none none "t0"
      rfl rfl).2.2.2.2⟩

/-- Witness for C9: a capitalized frequency maps to `quarter` through
the lowercase characterization, and `monthly` maps to `annual`. -/
theorem c9_witness :
    periodOf "Quarterly" = "quarter" ∧ periodOf "monthly" = "annual" :=
  ⟨(c9_freq_period_mapping.1 "Quarterly").mpr (by decide),
   c9_freq_period_mapping.2.2.2.1⟩

/-- Witness for C10: a three-row FRED table, so the output keeps all
`min(3, 20) = 3` rows and announces `Showing last 3 data points`. -/
theorem c10_witness :
    (dfFred.tail 20).rows = dfFred.rows.drop (dfFred.len - 20) ∧
    containsStr (get_economic_indicators sdkFred "UNRATE" none none "t0")
      ("# Showing last " ++ toString (min dfFred.len 20) ++ " data points") :=
  ⟨(c10_fred_tail_truncation sdkFred dfFred "UNRATE" none none "t0" rfl rfl).2.1,
   (c10_fred_tail_truncation sdkFred dfFred "UNRATE" none none "t0" rfl rfl).2.2.2⟩

end TA
